import Mathlib

/-!
Verification of `skills/linear-task-planner/scripts/linear_fetch.py`.

Each Python function the claims depend on is embedded as a Lean definition
with the same name. Python `Optional[str]` becomes `Option String`; Python
truthiness of an optional string (`if x:`) is the `truthyOpt` predicate;
Python exceptions become `Except String`. Python string primitives
(`str.strip`, `str.lower`, `str.upper`, `str.startswith`, `in`) are embedded
as `py`-prefixed functions over the character list of the string; the tokens
and hints the program handles are ASCII, where these agree with Python's
Unicode-aware versions.
-/

namespace LinearFetch

/-- Truthiness of an optional string, as Python evaluates `if x:` for
`x : Optional[str]`: `None` and the empty string are falsy. -/
def truthyOpt : Option String → Bool
  | none => false
  | some s => s ≠ ""

/-- Python `s.lower()`: character-wise lowercasing. -/
def pyLower (s : String) : String :=
  String.mk (s.data.map Char.toLower)

/-- Python `s.upper()`: character-wise uppercasing. -/
def pyUpper (s : String) : String :=
  String.mk (s.data.map Char.toUpper)

/-- Python `s.strip()` with no argument: remove leading and trailing
whitespace. -/
def pyStrip (s : String) : String :=
  String.mk (((s.data.dropWhile Char.isWhitespace).reverse.dropWhile
    Char.isWhitespace).reverse)

/-- Python `s.startswith(p)`. -/
def pyStartsWith (s p : String) : Bool :=
  p.data.isPrefixOf s.data

/-- Python `c in s` for a single character `c`: a one-character substring is
contained in `s` iff the character occurs in `s`. -/
def pyContainsChar (s : String) (c : Char) : Bool :=
  s.data.contains c

/-- Embedding of `format_auth_header(token, scheme)` (linear_fetch.py:231-244).
The trailing three-branch fallthrough (lines 240-244) returns the token in
every branch; it is kept verbatim as `unhinted`. `if scheme:` is Python
truthiness on an optional string, here split into the `none` case and the
empty-string case. -/
def format_auth_header (token : String) (scheme : Option String) : String :=
  let unhinted :=
    if pyStartsWith (pyLower token) "bearer " then token
    else if pyContainsChar token ' ' then token
    else token
  match scheme with
  | some s =>
      if s = "" then unhinted
      else
        let scheme_value := pyLower (pyStrip s)
        if scheme_value = "bearer" ∨ scheme_value = "oauth" then
          if pyStartsWith (pyLower token) "bearer " then token
          else "Bearer " ++ token
        else if scheme_value = "raw" ∨ scheme_value = "token" then token
        else unhinted
  | none => unhinted

/-- Claim C1: with a present scheme hint that trims+lowercases to `bearer` or
`oauth`, the header is the token prefixed with `Bearer ` unless the token
already starts with `bearer ` case-insensitively, in which case the token is
returned unchanged; with a hint normalizing to `raw` or `token`, the token is
returned unchanged verbatim. -/
theorem format_auth_header_hinted (token s : String) :
    ((pyLower (pyStrip s) = "bearer" ∨ pyLower (pyStrip s) = "oauth") →
      format_auth_header token (some s) =
        (if pyStartsWith (pyLower token) "bearer " then token
         else "Bearer " ++ token))
    ∧ ((pyLower (pyStrip s) = "raw" ∨ pyLower (pyStrip s) = "token") →
      format_auth_header token (some s) = token) := by
  constructor
  · intro hb
    have hs : s ≠ "" := by
      intro he
      subst he
      rcases hb with h | h <;> exact absurd h (by decide)
    rcases hb with h | h <;> simp [format_auth_header, hs, h]
  · intro hr
    have hs : s ≠ "" := by
      intro he
      subst he
      rcases hr with h | h <;> exact absurd h (by decide)
    rcases hr with h | h <;> simp [format_auth_header, hs, h]

/-- Witness for C1 at the spec's own examples. -/
theorem format_auth_header_hinted_witness :
    format_auth_header "abc123" (some "bearer") = "Bearer abc123"
    ∧ format_auth_header "Bearer abc123" (some "bearer") = "Bearer abc123"
    ∧ format_auth_header "abc123" (some "raw") = "abc123" := by
  refine ⟨?_, ?_, ?_⟩
  · have h := (format_auth_header_hinted "abc123" "bearer").1 (Or.inl (by decide))
    rw [h]; decide
  · have h := (format_auth_header_hinted "Bearer abc123" "bearer").1
      (Or.inl (by decide))
    rw [h]; decide
  · exact (format_auth_header_hinted "abc123" "raw").2 (Or.inl (by decide))

/-- Claim C5: with no scheme hint present, the token is always passed
through unchanged, whatever its shape. -/
theorem format_auth_header_no_hint (token : String) :
    format_auth_header token none = token := by
  simp [format_auth_header]

/-- Claim C10: a present scheme hint whose trimmed, lowercased form is none of
`bearer`, `oauth`, `raw`, `token` behaves like no hint: the token is returned
unchanged. -/
theorem format_auth_header_unrecognized (token s : String)
    (h : pyLower (pyStrip s) ≠ "bearer" ∧ pyLower (pyStrip s) ≠ "oauth"
      ∧ pyLower (pyStrip s) ≠ "raw" ∧ pyLower (pyStrip s) ≠ "token") :
    format_auth_header token (some s) = token := by
  obtain ⟨h1, h2, h3, h4⟩ := h
  by_cases hs : s = ""
  · subst hs
    simp [format_auth_header]
  · simp [format_auth_header, hs, h1, h2, h3, h4]

/-- Witness for C10 at hint `basic` and hint `BEARER_TOKEN`. -/
theorem format_auth_header_unrecognized_witness :
    format_auth_header "abc123" (some "basic") = "abc123"
    ∧ format_auth_header "abc123" (some "BEARER_TOKEN") = "abc123" :=
  ⟨format_auth_header_unrecognized "abc123" "basic" (by decide),
   format_auth_header_unrecognized "abc123" "BEARER_TOKEN" (by decide)⟩

/-- Embedding of `resolve_token(args, env_data)` (linear_fetch.py:270-275).
`args_token` is `args.token`, `environ_token` is
`os.environ.get("LINEAR_API_TOKEN")`, `env_file_token` is
`env_data.get("LINEAR_API_TOKEN")`; `if x:` is Python truthiness. -/
def resolve_token (args_token environ_token env_file_token : Option String) :
    Option String :=
  if truthyOpt args_token then args_token
  else if truthyOpt environ_token then environ_token
  else env_file_token

/-- Python `config.get("authMode") or "token"` (linear_fetch.py:412). -/
def effective_auth_mode (config_auth_mode : Option String) : String :=
  match config_auth_mode with
  | some m => if m = "" then "token" else m
  | none => "token"

/-- The credential phase of `main()` (linear_fetch.py:393-421): the `init`
command returns before it (line 410); otherwise the `authMode` config field
is checked first (lines 412-414) and only then is a token resolved and
required to be non-empty (lines 419-421). Returns the resolved token, or
`none` for `init` (which resolves no credential), or the raised error. -/
def main_auth_phase (command : String) (config_auth_mode : Option String)
    (args_token environ_token env_file_token : Option String) :
    Except String (Option String) :=
  if command = "init" then .ok none
  else if effective_auth_mode config_auth_mode = "mcp" then
    .error "Auth mode is set to mcp. Use MCP connectivity for this workspace."
  else
    let token := resolve_token args_token environ_token env_file_token
    if truthyOpt token then .ok token
    else .error "LINEAR_API_TOKEN not found in env or args"

/-- Claim C2: credential resolution takes, in order, the first non-empty of
the explicit token argument, the process environment variable, and the env
file mapping value; with no non-empty candidate and a non-`init` command, the
operation fails with the configuration error. -/
theorem resolve_token_precedence
    (command : String) (config_auth_mode : Option String)
    (ta ev ef : Option String)
    (hcmd : command ≠ "init")
    (hmode : effective_auth_mode config_auth_mode ≠ "mcp") :
    (truthyOpt ta = true → resolve_token ta ev ef = ta)
    ∧ (truthyOpt ta = false → truthyOpt ev = true → resolve_token ta ev ef = ev)
    ∧ (truthyOpt ta = false → truthyOpt ev = false →
        resolve_token ta ev ef = ef)
    ∧ (truthyOpt ta = false → truthyOpt ev = false → truthyOpt ef = false →
        main_auth_phase command config_auth_mode ta ev ef =
          .error "LINEAR_API_TOKEN not found in env or args") := by
  refine ⟨?_, ?_, ?_, ?_⟩
  · intro h1
    simp [resolve_token, h1]
  · intro h1 h2
    simp [resolve_token, h1, h2]
  · intro h1 h2
    simp [resolve_token, h1, h2]
  · intro h1 h2 h3
    simp [main_auth_phase, hcmd, hmode, resolve_token, h1, h2, h3]

/-- Witness for C2: all three precedence cases and the failure case at
concrete values. -/
theorem resolve_token_precedence_witness :
    resolve_token (some "argtok") (some "envvar") (some "filetok")
      = some "argtok"
    ∧ resolve_token none (some "envvar") (some "filetok") = some "envvar"
    ∧ resolve_token none none (some "filetok") = some "filetok"
    ∧ main_auth_phase "issue" (some "token") none none none =
        .error "LINEAR_API_TOKEN not found in env or args" := by
  have h := resolve_token_precedence "issue" (some "token")
    (some "argtok") (some "envvar") (some "filetok")
    (by decide) (by decide)
  have h2 := resolve_token_precedence "issue" (some "token")
    none (some "envvar") (some "filetok") (by decide) (by decide)
  have h3 := resolve_token_precedence "issue" (some "token")
    none none (some "filetok") (by decide) (by decide)
  have h4 := resolve_token_precedence "issue" (some "token")
    none none none (by decide) (by decide)
  exact ⟨h.1 (by decide), h2.2.1 (by decide) (by decide),
    h3.2.2.1 (by decide) (by decide),
    h4.2.2.2 (by decide) (by decide) (by decide)⟩

/-- Claim C6: for a non-`init` command, a config whose `authMode` field is
`mcp` makes the operation fail with the MCP redirection error, whatever token
material is available from any source. -/
theorem mcp_mode_short_circuit (command : String)
    (ta ev ef : Option String) (hcmd : command ≠ "init") :
    main_auth_phase command (some "mcp") ta ev ef =
      .error "Auth mode is set to mcp. Use MCP connectivity for this workspace." := by
  simp [main_auth_phase, hcmd, effective_auth_mode]

/-- Witness for C6: the `issue` command with valid tokens available from all
three sources still fails when `authMode` is `mcp`. -/
theorem mcp_mode_short_circuit_witness :
    main_auth_phase "issue" (some "mcp")
      (some "argtok") (some "envvar") (some "filetok") =
      .error "Auth mode is set to mcp. Use MCP connectivity for this workspace." :=
  mcp_mode_short_circuit "issue" (some "argtok") (some "envvar")
    (some "filetok") (by decide)

/-- Python `d.get(k, dflt)` on a string-valued JSON object, modelled as an
association list (dict keys are unique, so first match is the match). -/
def dictGet (d : List (String × String)) (k dflt : String) : String :=
  match d.lookup k with
  | some v => v
  | none => dflt

/-- Python `node.get("identifier", "?")` (linear_fetch.py:449). -/
def node_identifier (node : List (String × String)) : String :=
  dictGet node "identifier" "?"

/-- Embedding of the disambiguation step of the issue-by-identifier path
(linear_fetch.py:444-453): `nodes` is the list already extracted from
`data.issues.nodes` of the decoded response, `identifier` the original
`--identifier` argument. On a unique match the code falls through and writes
the response, so the node list passes through unchanged. -/
def disambiguate (identifier : String)
    (nodes : List (List (String × String))) :
    Except String (List (List (String × String))) :=
  if nodes.length = 0 then
    .error ("No issue found for identifier " ++ identifier)
  else if nodes.length > 1 then
    .error ("Multiple issues matched identifier. Use --id instead. Matches: "
      ++ String.intercalate ", " (nodes.map node_identifier))
  else .ok nodes

/-- Claim C7: zero nodes fail with a not-found error naming the identifier;
exactly one node succeeds yielding that node; several nodes fail with an
ambiguity error comma-joining every matched identifier string and pointing at
the direct-id lookup. -/
theorem disambiguate_cases (identifier : String)
    (nodes : List (List (String × String))) :
    (nodes = [] → disambiguate identifier nodes =
      .error ("No issue found for identifier " ++ identifier))
    ∧ (∀ n, nodes = [n] → disambiguate identifier nodes = .ok [n])
    ∧ (1 < nodes.length → disambiguate identifier nodes =
      .error ("Multiple issues matched identifier. Use --id instead. Matches: "
        ++ String.intercalate ", " (nodes.map node_identifier))) := by
  refine ⟨?_, ?_, ?_⟩
  · intro h
    subst h
    simp [disambiguate]
  · intro n h
    subst h
    simp [disambiguate]
  · intro h
    have h0 : nodes.length ≠ 0 := by omega
    simp [disambiguate, h0, h]

/-- Witness for C7: the three disambiguation outcomes at concrete node lists,
including a node lacking an `identifier` field (listed as `?`). -/
theorem disambiguate_cases_witness :
    disambiguate "ENG-1" [] = .error "No issue found for identifier ENG-1"
    ∧ disambiguate "ENG-1" [[("identifier", "ENG-1"), ("title", "a")]] =
        .ok [[("identifier", "ENG-1"), ("title", "a")]]
    ∧ disambiguate "ENG-1"
        [[("identifier", "ENG-1")], [("identifier", "ENG2-1")], [("title", "b")]] =
        .error "Multiple issues matched identifier. Use --id instead. Matches: ENG-1, ENG2-1, ?" := by
  refine ⟨?_, ?_, ?_⟩
  · exact (disambiguate_cases "ENG-1" []).1 rfl
  · exact (disambiguate_cases "ENG-1" _).2.1 _ rfl
  · have h := (disambiguate_cases "ENG-1"
      [[("identifier", "ENG-1")], [("identifier", "ENG2-1")], [("title", "b")]]).2.2
      (by decide)
    rw [h]
    exact congrArg Except.error (by decide)

/-- Python `error.get("message", "Unknown error")` (linear_fetch.py:293),
for one entry of the top-level error list. -/
def error_message (e : List (String × String)) : String :=
  dictGet e "message" "Unknown error"

/-- Embedding of `raise_on_errors(response)` (linear_fetch.py:289-294):
the argument is `response.get("errors")` (`none` when the key is absent);
`if not errors:` covers both absence and the empty list. -/
def raise_on_errors (errors : Option (List (List (String × String)))) :
    Except String Unit :=
  match errors with
  | none => .ok ()
  | some es =>
      if es.isEmpty then .ok ()
      else .error ("GraphQL error: "
        ++ String.intercalate "; " (es.map error_message))

/-- Claim C9: `raise_on_errors` is a no-op when the top-level error list is
absent or empty, and otherwise fails with the uniform error whose payload is
the semicolon-joined message fields, `Unknown error` standing in for entries
with no message field. -/
theorem raise_on_errors_spec
    (errors : Option (List (List (String × String)))) :
    (errors = none → raise_on_errors errors = .ok ())
    ∧ (errors = some [] → raise_on_errors errors = .ok ())
    ∧ (∀ es, errors = some es → es ≠ [] → raise_on_errors errors =
      .error ("GraphQL error: "
        ++ String.intercalate "; " (es.map error_message))) := by
  refine ⟨?_, ?_, ?_⟩
  · intro h
    subst h
    rfl
  · intro h
    subst h
    rfl
  · intro es h hne
    subst h
    simp [raise_on_errors, hne]

/-- Witness for C9 at the spec's example response, one entry lacking a
message field, plus the two no-op cases. -/
theorem raise_on_errors_spec_witness :
    raise_on_errors none = .ok ()
    ∧ raise_on_errors (some []) = .ok ()
    ∧ raise_on_errors
        (some [[("message", "bad token")], [("message", "rate limited")], []]) =
        .error "GraphQL error: bad token; rate limited; Unknown error" := by
  refine ⟨?_, ?_, ?_⟩
  · exact (raise_on_errors_spec none).1 rfl
  · exact (raise_on_errors_spec (some [])).2.1 rfl
  · have h := (raise_on_errors_spec
      (some [[("message", "bad token")], [("message", "rate limited")], []])).2.2
      _ rfl (by decide)
    rw [h]
    exact congrArg Except.error (by decide)

/-- The optional fields of the `init` subcommand (linear_fetch.py:327-345);
each is `None` when the flag is not given, and argparse never produces an
empty string unless the caller passes one explicitly. -/
structure InitArgs where
  workspace : Option String
  team_id : Option String
  team_key : Option String
  project_id : Option String
  project_name : Option String
  board_url : Option String
  env : Option String
  auth_mode : Option String
  auth_scheme : Option String
  mcp_server : Option String

/-- Python `a or b` on optional strings: `a` when truthy, else `b`. -/
def pyOr (a b : Option String) : Option String :=
  if truthyOpt a then a else b

/-- The `updates` dict literal of the `init` branch (linear_fetch.py:394-405).
The loaded config is modelled as a finite map `String → Option String`
(Python `dict.get`). The `envFile` candidate is `args.env or
config.get("envFile")`. -/
def init_updates (args : InitArgs) (config : String → Option String) :
    List (String × Option String) :=
  [("workspace", args.workspace),
   ("teamId", args.team_id),
   ("teamKey", args.team_key),
   ("projectId", args.project_id),
   ("projectName", args.project_name),
   ("boardUrl", args.board_url),
   ("envFile", pyOr args.env (config "envFile")),
   ("authMode", args.auth_mode),
   ("authScheme", args.auth_scheme),
   ("mcpServer", args.mcp_server)]

/-- `clean_updates = {k: v for k, v in updates.items() if v}`
(linear_fetch.py:406). -/
def clean_updates (args : InitArgs) (config : String → Option String) :
    List (String × Option String) :=
  (init_updates args config).filter (fun kv => truthyOpt kv.2)

/-- `config.update(clean_updates)` (linear_fetch.py:407) followed by
persisting: the resulting mapping, read at any key. -/
def init_merge (config : String → Option String) (args : InitArgs) :
    String → Option String :=
  fun k =>
    match (clean_updates args config).lookup k with
    | some v => v
    | none => config k

theorem lookup_filter_truthy (l : List (String × Option String))
    (k : String) (v : Option String)
    (h : (l.filter (fun kv => truthyOpt kv.2)).lookup k = some v) :
    truthyOpt v = true := by
  induction l with
  | nil => simp at h
  | cons hd tl ih =>
      by_cases hp : truthyOpt hd.2
      · rw [List.filter_cons_of_pos (by simpa using hp)] at h
        rw [List.lookup_cons] at h
        cases hk : (k == hd.1) with
        | true =>
            rw [hk] at h
            simp at h
            exact h ▸ hp
        | false =>
            rw [hk] at h
            exact ih h
      · rw [List.filter_cons_of_neg (by simpa using hp)] at h
        exact ih h

/-- Claim C8: the `init` merge drops every falsy candidate entry, merges only
the surviving truthy entries over the loaded config, and every key not among
the surviving entries keeps exactly its prior value. -/
theorem init_merge_frame (config : String → Option String) (args : InitArgs)
    (k : String) :
    (∀ kv, kv ∈ init_updates args config → truthyOpt kv.2 = false →
      kv ∉ clean_updates args config)
    ∧ ((clean_updates args config).lookup k = none →
      init_merge config args k = config k)
    ∧ (∀ v, (clean_updates args config).lookup k = some v →
      truthyOpt v = true ∧ init_merge config args k = v) := by
  refine ⟨?_, ?_, ?_⟩
  · intro kv _ hfalsy hmem
    rw [clean_updates, List.mem_filter] at hmem
    rw [hfalsy] at hmem
    exact Bool.false_ne_true hmem.2
  · intro h
    simp [init_merge, h]
  · intro v h
    exact ⟨lookup_filter_truthy _ _ _ h, by simp [init_merge, h]⟩

/-- Witness for C8: `--workspace ""` is dropped, preserving the stored
`workspace`; `--team-key ENG` survives and overwrites. -/
theorem init_merge_frame_witness :
    init_merge (fun k => if k = "workspace" then some "oldws" else none)
      ⟨some "", none, some "ENG", none, none, none, none, none, none, none⟩
      "workspace" = some "oldws"
    ∧ init_merge (fun k => if k = "workspace" then some "oldws" else none)
      ⟨some "", none, some "ENG", none, none, none, none, none, none, none⟩
      "teamKey" = some "ENG" := by
  constructor
  · have h := (init_merge_frame
      (fun k => if k = "workspace" then some "oldws" else none)
      ⟨some "", none, some "ENG", none, none, none, none, none, none, none⟩
      "workspace").2.1 (by decide)
    exact h.trans (by decide)
  · exact ((init_merge_frame
      (fun k => if k = "workspace" then some "oldws" else none)
      ⟨some "", none, some "ENG", none, none, none, none, none, none, none⟩
      "teamKey").2.2 (some "ENG") (by decide)).2

theorem takeWhile_append_middle {α : Type} (p : α → Bool) (l1 : List α)
    (c : α) (l2 : List α) (h1 : ∀ a ∈ l1, p a = true) (h2 : p c = false) :
    (l1 ++ c :: l2).takeWhile p = l1
    ∧ (l1 ++ c :: l2).dropWhile p = c :: l2 := by
  induction l1 with
  | nil => simp [List.takeWhile_cons, List.dropWhile_cons, h2]
  | cons a as ih =>
      have ha : p a = true := h1 a (List.mem_cons_self a as)
      have has := ih (fun x hx => h1 x (List.mem_cons_of_mem a hx))
      simp [List.takeWhile_cons, List.dropWhile_cons, ha, has.1, has.2]

/-- ASCII letter, the `[A-Za-z]` character class. -/
def isAsciiLetter (c : Char) : Bool :=
  ('A' ≤ c && c ≤ 'Z') || ('a' ≤ c && c ≤ 'z')

/-- The `[A-Za-z0-9_]` character class (`Char.isDigit` is `[0-9]`). -/
def isWordChar (c : Char) : Bool :=
  isAsciiLetter c || c.isDigit || c == '_'

/-- Python `int` on a non-empty decimal digit string. -/
def digitsVal (l : List Char) : Nat :=
  l.foldl (fun acc c => acc * 10 + (c.toNat - 48)) 0

/-- The regex `^([A-Za-z][A-Za-z0-9_]*)-(\d+)$` of `parse_issue_identifier`
(linear_fetch.py:223), returning the two capture groups. Neither character
class contains `-`, so a match necessarily splits the string at its first
`-`: the part before it must be a letter followed by word characters, the
part after it a non-empty run of digits. -/
def regex_team_number (s : List Char) : Option (List Char × List Char) :=
  match s.dropWhile (fun c => !(c == '-')) with
  | '-' :: digits =>
      match s.takeWhile (fun c => !(c == '-')) with
      | [] => none
      | c :: cs =>
          if isAsciiLetter c && cs.all isWordChar
              && !digits.isEmpty && digits.all Char.isDigit then
            some (c :: cs, digits)
          else none
  | _ => none

/-- Embedding of `parse_issue_identifier(identifier)`
(linear_fetch.py:221-228): strip, match, uppercase the team key, convert the
digit run; on non-match raise naming the original input. -/
def parse_issue_identifier (identifier : String) :
    Except String (String × Nat) :=
  match regex_team_number (pyStrip identifier).data with
  | some (key, digits) => .ok (pyUpper (String.mk key), digitsVal digits)
  | none => .error ("Invalid issue identifier '" ++ identifier
      ++ "'. Expected format TEAM-123.")

theorem isWordChar_not_hyphen {c : Char} (h : isWordChar c = true) :
    (!(c == '-')) = true := by
  by_cases hc : c = '-'
  · subst hc
    exact absurd h (by decide)
  · simp [hc]

theorem isAsciiLetter_not_hyphen {c : Char} (h : isAsciiLetter c = true) :
    (!(c == '-')) = true :=
  isWordChar_not_hyphen (by simp [isWordChar, h])

/-- Soundness and completeness of the embedded regex against the
decomposition it recognizes. -/
theorem regex_team_number_eq_some (s key digits : List Char) :
    regex_team_number s = some (key, digits) ↔
      ∃ c cs, key = c :: cs ∧ s = key ++ '-' :: digits
        ∧ isAsciiLetter c = true ∧ cs.all isWordChar = true
        ∧ digits ≠ [] ∧ digits.all Char.isDigit = true := by
  constructor
  · intro h
    unfold regex_team_number at h
    split at h
    case h_1 digits' heq =>
      split at h
      · exact absurd h (by simp)
      case h_2 c cs htake =>
        split at h
        case isTrue hcond =>
          rw [Option.some.injEq, Prod.mk.injEq] at h
          obtain ⟨hk, hd⟩ := h
          simp only [Bool.and_eq_true] at hcond
          obtain ⟨⟨⟨hA, hW⟩, hE⟩, hD⟩ := hcond
          refine ⟨c, cs, hk.symm, ?_, hA, hW, ?_, hd ▸ hD⟩
          · rw [← List.takeWhile_append_dropWhile
              (p := fun c => !(c == '-')) (l := s), htake, heq, hk, hd]
          · rw [← hd]
            simpa using hE
        case isFalse => exact absurd h (by simp)
    case h_2 => exact absurd h (by simp)
  · rintro ⟨c, cs, rfl, rfl, hA, hW, hne, hD⟩
    have hall : ∀ a ∈ c :: cs, (!(a == '-')) = true := by
      intro a ha
      rcases List.mem_cons.mp ha with rfl | ha
      · exact isAsciiLetter_not_hyphen hA
      · exact isWordChar_not_hyphen (by
          have := List.all_eq_true.mp hW a ha
          simpa using this)
    have hsplit := takeWhile_append_middle (fun c => !(c == '-'))
      (c :: cs) '-' digits hall (by decide)
    unfold regex_team_number
    rw [hsplit.1, hsplit.2]
    simp [hA, hW, hD, hne]

/-- Claim C3: `parse_issue_identifier` trims its input; when the trimmed
string is a letter, a run of letters/digits/underscore, a hyphen, and a
non-empty digit run, it returns the uppercased team key and the numeric value
of the digit run; when the trimmed string admits no such decomposition, it
fails with the validation error naming the offending input and the
`TEAM-123` shape. -/
theorem parse_issue_identifier_spec (identifier : String) :
    (∀ c cs digits,
      (pyStrip identifier).data = (c :: cs) ++ '-' :: digits →
      isAsciiLetter c = true → cs.all isWordChar = true →
      digits ≠ [] → digits.all Char.isDigit = true →
      parse_issue_identifier identifier =
        .ok (pyUpper (String.mk (c :: cs)), digitsVal digits))
    ∧ ((∀ c cs digits,
        (pyStrip identifier).data = (c :: cs) ++ '-' :: digits →
        ¬(isAsciiLetter c = true ∧ cs.all isWordChar = true
          ∧ digits ≠ [] ∧ digits.all Char.isDigit = true)) →
      parse_issue_identifier identifier =
        .error ("Invalid issue identifier '" ++ identifier
          ++ "'. Expected format TEAM-123.")) := by
  constructor
  · intro c cs digits hdec hA hW hne hD
    have hr : regex_team_number (pyStrip identifier).data =
        some (c :: cs, digits) :=
      (regex_team_number_eq_some _ _ _).mpr
        ⟨c, cs, rfl, hdec, hA, hW, hne, hD⟩
    unfold parse_issue_identifier
    rw [hr]
  · intro h
    cases hr : regex_team_number (pyStrip identifier).data with
    | some kv =>
        exfalso
        obtain ⟨key, digits⟩ := kv
        obtain ⟨c, cs, rfl, hdec, hA, hW, hne, hD⟩ :=
          (regex_team_number_eq_some _ _ _).mp hr
        exact h c cs digits hdec ⟨hA, hW, hne, hD⟩
    | none =>
        unfold parse_issue_identifier
        rw [hr]

/-- Witness for C3: the spec's examples `eng-42` and `A1-7`, and the
non-matching input `ENG` (no hyphen, so no decomposition exists). -/
theorem parse_issue_identifier_spec_witness :
    parse_issue_identifier "eng-42" = .ok ("ENG", 42)
    ∧ parse_issue_identifier "A1-7" = .ok ("A1", 7)
    ∧ parse_issue_identifier "ENG" =
        .error "Invalid issue identifier 'ENG'. Expected format TEAM-123." := by
  refine ⟨?_, ?_, ?_⟩
  · have h := (parse_issue_identifier_spec "eng-42").1 'e' ['n', 'g']
      ['4', '2'] (by decide) (by decide) (by decide) (by decide) (by decide)
    exact h.trans (congrArg Except.ok (by decide))
  · have h := (parse_issue_identifier_spec "A1-7").1 'A' ['1'] ['7']
      (by decide) (by decide) (by decide) (by decide) (by decide)
    exact h.trans (congrArg Except.ok (by decide))
  · have h := (parse_issue_identifier_spec "ENG").2 (by
      intro c cs digits hdec
      have hm : '-' ∈ (pyStrip "ENG").data := by
        rw [hdec]
        simp
      exact absurd hm (by decide))
    exact h.trans (congrArg Except.error (by decide))

/-- Python `s.strip(q)` for a single strip character `q`: remove ALL leading
and ALL trailing occurrences of `q` (no pairing requirement). -/
def stripEnds (q : Char) (l : List Char) : List Char :=
  ((l.dropWhile (fun c => c == q)).reverse.dropWhile (fun c => c == q)).reverse

/-- The value processing `value.strip().strip(DQUOTE).strip(SQUOTE)` of
`load_env_file` (linear_fetch.py:191). -/
def clean_env_value (value : String) : String :=
  String.mk (stripEnds '\'' (stripEnds '"' (pyStrip value).data))

/-- Python `line.split("=", 1)` when `"=" in line` (linear_fetch.py:188-190):
the part before the first `=` and the part after it; `none` when the line has
no `=`. -/
def splitFirstEq (l : List Char) : Option (List Char × List Char) :=
  match l.dropWhile (fun c => !(c == '=')) with
  | '=' :: rest => some (l.takeWhile (fun c => !(c == '=')), rest)
  | _ => none

/-- The `export `-prefix handling of `load_env_file` (linear_fetch.py:186-187)
applied to the already-stripped line: drop the 7-character prefix and strip
again. -/
def envEffectiveLine (line : String) : String :=
  let l := pyStrip line
  if pyStartsWith l "export " then pyStrip (String.mk (l.data.drop 7)) else l

/-- Embedding of one iteration of the `load_env_file` loop
(linear_fetch.py:182-191): skip blank and `#` lines, handle the `export `
prefix, skip lines without `=`, split at the first `=`, strip the key, and
clean the value. -/
def parse_env_line (line : String) : Option (String × String) :=
  let l := pyStrip line
  if l = "" then none
  else if pyStartsWith l "#" then none
  else
    match splitFirstEq (envEffectiveLine line).data with
    | some (k, v) =>
        some (pyStrip (String.mk k), clean_env_value (String.mk v))
    | none => none

/-- Python dict assignment `env[k] = v`: overwrite in place when the key is
present, else append. -/
def envInsert (env : List (String × String)) (k v : String) :
    List (String × String) :=
  if env.any (fun kv => kv.1 == k) then
    env.map (fun kv => if kv.1 == k then (k, v) else kv)
  else env ++ [(k, v)]

/-- Embedding of `load_env_file` (linear_fetch.py:178-192) over the list of
lines of the file's text. -/
def load_env_file (lines : List String) : List (String × String) :=
  lines.foldl (fun env line =>
    match parse_env_line line with
    | some (k, v) => envInsert env k v
    | none => env) []

/-- Modelled from the spec's words, for comparison with the code's
`stripEnds`: remove exactly one matching pair of leading/trailing `q`
characters, and nothing when the ends do not form such a pair. -/
def spec_strip_one_pair (q : Char) (l : List Char) : List Char :=
  match l with
  | [] => []
  | x :: xs =>
      if x == q && (xs.getLast? == some q) then xs.dropLast else l

/-- Modelled from the spec's words: the value handling claim C4 describes —
trim, then strip one matching pair of double quotes, then one matching pair
of single quotes. -/
def spec_env_value (value : String) : String :=
  String.mk (spec_strip_one_pair '\'' (spec_strip_one_pair '"'
    (pyStrip value).data))

/-- Counterexample to claim C4: on the line `A=""x""` the code removes ALL
leading and trailing double quotes — Python `str.strip` takes a character
set, not a pair — yielding `x`, while the claimed one-matching-pair strip
would keep one pair and yield `"x"`. Likewise the unmatched leading quote of
`B="x` is removed by the code though the claim says it is kept. -/
theorem env_value_strip_cex :
    parse_env_line "A=\"\"x\"\"" = some ("A", "x")
    ∧ spec_env_value "\"\"x\"\"" = "\"x\""
    ∧ parse_env_line "A=\"\"x\"\"" ≠ some ("A", spec_env_value "\"\"x\"\"")
    ∧ parse_env_line "B=\"x" = some ("B", "x")
    ∧ spec_env_value "\"x" = "\"x"
    ∧ parse_env_line "B=\"x" ≠ some ("B", spec_env_value "\"x") := by
  refine ⟨by decide, by decide, by decide, by decide, by decide, by decide⟩

/-- Claim C4 as amended: for every surviving env-file line containing `=`,
the value is the text after the first `=`, trimmed, then stripped of ALL
leading and trailing double-quote characters, then of ALL leading and
trailing single-quote characters, with no pairing requirement. -/
theorem parse_env_line_value (line : String) (pre post : List Char)
    (hne : pyStrip line ≠ "")
    (hnc : pyStartsWith (pyStrip line) "#" = false)
    (heff : (envEffectiveLine line).data = pre ++ '=' :: post)
    (hpre : '=' ∉ pre) :
    parse_env_line line =
      some (pyStrip (String.mk pre),
        String.mk (stripEnds '\'' (stripEnds '"'
          (pyStrip (String.mk post)).data))) := by
  have hall : ∀ a ∈ pre, (!(a == '=')) = true := by
    intro a ha
    have : a ≠ '=' := fun h => hpre (h ▸ ha)
    simp [this]
  have hsplit := takeWhile_append_middle (fun c => !(c == '=')) pre '=' post
    hall (by decide)
  have hs : splitFirstEq (envEffectiveLine line).data = some (pre, post) := by
    unfold splitFirstEq
    rw [heff, hsplit.1, hsplit.2]
    rfl
  unfold parse_env_line
  rw [if_neg hne, if_neg (by simp [hnc]), hs]
  rfl

/-- Witness for the amended C4 at the spec's round-trip example line. -/
theorem parse_env_line_value_witness :
    parse_env_line "export LINEAR_API_TOKEN=\"secret-value\"" =
      some ("LINEAR_API_TOKEN", "secret-value") := by
  have h := parse_env_line_value "export LINEAR_API_TOKEN=\"secret-value\""
    "LINEAR_API_TOKEN".data "\"secret-value\"".data
    (by decide) (by decide) (by decide) (by decide)
  exact h.trans (by decide)

end LinearFetch
